import Mathlib

/-!
Shallow embedding of the two server-bootstrap scripts of the repository
(`src/serve.py`, the fixed-port variant, and `src/test/serve.py`, the
free-port variant).

The effectful Python code is modelled as a pure function from an
environment to a trace of observable events plus an outcome.  Socket
binds are abstracted by an availability oracle `avail : Nat → Int → Bool`
whose first argument is the index of the bind attempt within the process
(so the oracle may answer differently at different times, which is what a
real OS can do between the free-port probe and the serving bind); `avail
t p = true` means the `t`-th bind attempt, made on port `p`, succeeds,
and `avail t p = false` means it raises `OSError`.
-/

/-- Observable events of an execution, in order of occurrence.
`probe p` is a bind-and-release attempt on port `p` made by
`find_free_port`; `bind p` is the serving bind made by `main`. -/
inductive Event where
  | print (s : String)
  | chdir (dir : List String)
  | probe (port : Int)
  | bind (port : Int)
  | openBrowser (url : String)
  | serve
deriving DecidableEq, Repr

/-- How the process ends: `exited c` is a process exit with status `c`
(`sys.exit` or falling off the end of `main`), `uncaught e` is an
unhandled exception named `e` (the interpreter then exits non-zero), and
`runsForever` is the serve loop never being interrupted. -/
inductive Outcome where
  | exited (code : Nat)
  | uncaught (exc : String)
  | runsForever
deriving DecidableEq, Repr

/-- The inputs an execution of either script depends on: the command-line
arguments after the program name (`sys.argv[1:]`), the bind oracle, the
directory of the running script (`Path(__file__).parent`, as a list of
path components), whether `webbrowser.open` succeeds, and whether a
`KeyboardInterrupt` is delivered during `serve_forever`. -/
structure Env where
  argv : List String
  avail : Nat → Int → Bool
  scriptDir : List String
  browserOk : Bool
  interrupt : Bool

/-- Whitespace stripped by Python's `int(str)` before parsing. -/
def pySpace (c : Char) : Bool :=
  c = ' ' ∨ c = '\t' ∨ c = '\n' ∨ c = '\x0d' ∨ c = '\x0b' ∨ c = '\x0c'

/-- Decimal digit test. -/
def pyDigit (c : Char) : Bool := '0' ≤ c ∧ c ≤ '9'

/-- Value of a decimal digit character. -/
def digitVal (c : Char) : Nat := c.toNat - '0'.toNat

/-- Continuation of Python decimal-literal parsing after at least one
digit has been read: further digits, with single underscores allowed
only between digits. -/
def pyDigitsGo : List Char → Nat → Option Nat
  | [], acc => some acc
  | '_' :: c :: rest, acc =>
      if pyDigit c then pyDigitsGo rest (acc * 10 + digitVal c) else none
  | ['_'], _ => none
  | c :: rest, acc =>
      if pyDigit c then pyDigitsGo rest (acc * 10 + digitVal c) else none

/-- Python unsigned decimal literal: nonempty, starts with a digit,
single underscores allowed between digits. -/
def pyDigits : List Char → Option Nat
  | [] => none
  | c :: rest => if pyDigit c then pyDigitsGo rest (digitVal c) else none

/-- Semantics of Python's `int(s)` on a string: strip whitespace, then an
optional sign followed by a decimal literal; `none` models the
`ValueError` raised on any other input. -/
def pyIntParse (s : String) : Option Int :=
  let cs := ((s.toList.dropWhile pySpace).reverse.dropWhile pySpace).reverse
  match cs with
  | '+' :: rest => (pyDigits rest).map Int.ofNat
  | '-' :: rest => (pyDigits rest).map (fun n => -(Int.ofNat n : Int))
  | rest => (pyDigits rest).map Int.ofNat

/-- `port = int(sys.argv[1]) if len(sys.argv) > 1 else 8000`, shared by
both scripts; `none` models the uncaught `ValueError`. -/
def requestedPort (argv : List String) : Option Int :=
  match argv with
  | [] => some 8000
  | s :: _ => pyIntParse s

/-- Result of `find_free_port`: the returned value, the list of ports on
which a bind was attempted (in order), and the bind-attempt counter after
the call. -/
structure ProbeResult where
  found : Option Int
  attempts : List Int
  tEnd : Nat
deriving DecidableEq, Repr

/-- The loop body of `find_free_port`: try ports `port, port+1, ...` for
`remaining` more iterations, one bind attempt per iteration, returning
the first port whose bind succeeds. -/
def probeGo (avail : Nat → Int → Bool) (t : Nat) (port : Int) :
    Nat → ProbeResult
  | 0 => ⟨none, [], t⟩
  | remaining + 1 =>
      if avail t port then ⟨some port, [port], t + 1⟩
      else
        let r := probeGo avail (t + 1) (port + 1) remaining
        ⟨r.found, port :: r.attempts, r.tEnd⟩

/-- `find_free_port(start_port, max_attempts)` of `src/test/serve.py`:
for each port in `range(start_port, start_port + max_attempts)`, attempt
to create (and immediately release) a `TCPServer` on it; return the first
port for which this does not raise `OSError`, or `None` after the loop.
`t` is the bind-attempt counter at entry. -/
def find_free_port (avail : Nat → Int → Bool) (t : Nat)
    (start_port : Int) (max_attempts : Nat) : ProbeResult :=
  probeGo avail t start_port max_attempts

/-- The three CORS headers sent by `CORSRequestHandler.end_headers` of
`src/serve.py`, in order. -/
def corsHeaders : List (String × String) :=
  [("Access-Control-Allow-Origin", "*"),
   ("Access-Control-Allow-Methods", "GET, POST, OPTIONS"),
   ("Access-Control-Allow-Headers", "*")]

/-- The three CORS headers sent by `CORSRequestHandler.end_headers` of
`src/test/serve.py`, in order. -/
def corsHeadersTest : List (String × String) :=
  [("Access-Control-Allow-Origin", "*"),
   ("Access-Control-Allow-Methods", "GET, POST, OPTIONS"),
   ("Access-Control-Allow-Headers", "*")]

/-- `CORSRequestHandler.end_headers` of `src/serve.py`: given the headers
the base handler has buffered for the current response (whatever its
path, method or status), it calls `send_header` for each of the three
CORS headers and then `super().end_headers()`, so the finalized header
list is the buffer with the CORS headers appended. -/
def serveEndHeaders (buffered : List (String × String)) :
    List (String × String) :=
  buffered ++ corsHeaders

/-- `CORSRequestHandler.end_headers` of `src/test/serve.py`, identical
to the fixed-port variant's. -/
def testEndHeaders (buffered : List (String × String)) :
    List (String × String) :=
  buffered ++ corsHeadersTest

/-- `try: webbrowser.open(url) except: pass` — the attempt is always
made (one `openBrowser` event); if it raises, the bare `except` swallows
the exception, so the block contributes nothing further either way. -/
def browserBlock (ok : Bool) (url : String) : List Event :=
  Event.openBrowser url ::
    (match (if ok then Except.ok () else Except.error "Exception" :
        Except String Unit) with
     | Except.ok _ => []
     | Except.error _ => [])

/-- The tail of `main` shared by both scripts once the serving socket is
bound on `port`: `print "Press Ctrl+C..."`, then
`try: httpd.serve_forever() except KeyboardInterrupt: print(...)`.
If no interrupt arrives, the loop never returns; if one does, it is
caught, the shutdown notice is printed and `main` returns (process exit
status 0). -/
def serveLoop (interrupt : Bool) : List Event × Outcome :=
  if interrupt then
    ([Event.serve, Event.print "\nServer stopped."], Outcome.exited 0)
  else ([Event.serve], Outcome.runsForever)

/-- Body of `main` of `src/serve.py` after the port has been parsed:
`os.chdir(script_dir)`, then `with socketserver.TCPServer(("", port),
CORSRequestHandler)` (the process's bind attempt number 0; an `OSError`
here is uncaught), then the two prints, the guarded browser launch, and
the serve loop. -/
def mainServeRun (env : Env) (port : Int) : List Event × Outcome :=
  let ev0 := [Event.chdir env.scriptDir]
  if env.avail 0 port then
    let url := "http://localhost:" ++ toString port ++ "/test.html"
    let ev1 := ev0 ++
      [Event.bind port,
       Event.print ("Serving at http://localhost:" ++ toString port ++ "/"),
       Event.print ("Open test page: " ++ url)] ++
      browserBlock env.browserOk url ++
      [Event.print "Press Ctrl+C to stop the server"]
    let tail := serveLoop env.interrupt
    (ev1 ++ tail.1, tail.2)
  else (ev0, Outcome.uncaught "OSError")

/-- `main` of `src/serve.py` (the fixed-port variant):
`port = int(sys.argv[1]) if len(sys.argv) > 1 else 8000` — a
`ValueError` from `int` is uncaught and nothing has happened yet —
then the body. -/
def mainServe (env : Env) : List Event × Outcome :=
  match requestedPort env.argv with
  | none => ([], Outcome.uncaught "ValueError")
  | some port => mainServeRun env port

/-- Body of `main` of `src/test/serve.py` after the requested port has
been parsed: `port = find_free_port(requested_port)` (attempt budget 10,
bind-attempt counter starts at 0); on `None`, print the error message
and `sys.exit(1)`; otherwise optionally print the substitute-port
notice, `os.chdir(project_root)` (the parent of the script's directory),
then bind the serving socket on `port` (bind attempt number `r.tEnd`; an
`OSError` here is uncaught), print, launch the browser guarded, and run
the serve loop. -/
def mainTestRun (env : Env) (requested : Int) : List Event × Outcome :=
  let r := find_free_port env.avail 0 requested 10
  let probeEvents := r.attempts.map Event.probe
  match r.found with
  | none =>
      (probeEvents ++
        [Event.print ("Error: Could not find an available port starting from "
          ++ toString requested)],
       Outcome.exited 1)
  | some port =>
      let ev1 := probeEvents ++
        (if port = requested then []
         else [Event.print ("Port " ++ toString requested ++
           " is in use, using port " ++ toString port ++ " instead")]) ++
        [Event.chdir env.scriptDir.dropLast]
      if env.avail r.tEnd port then
        let url := "http://localhost:" ++ toString port ++ "/test/test.html"
        let ev2 := ev1 ++
          [Event.bind port,
           Event.print ("Serving at http://localhost:" ++ toString port ++ "/"),
           Event.print ("Open test page: " ++ url)] ++
          browserBlock env.browserOk url ++
          [Event.print "Press Ctrl+C to stop the server"]
        let tail := serveLoop env.interrupt
        (ev2 ++ tail.1, tail.2)
      else (ev1, Outcome.uncaught "OSError")

/-- `main` of `src/test/serve.py` (the free-port variant):
`requested_port = int(sys.argv[1]) if len(sys.argv) > 1 else 8000` — a
`ValueError` from `int` is uncaught and nothing has happened yet — then
the body. -/
def mainTest (env : Env) : List Event × Outcome :=
  match requestedPort env.argv with
  | none => ([], Outcome.uncaught "ValueError")
  | some port => mainTestRun env port

/-- Event classifiers used to state trace properties. -/
def isProbe : Event → Bool
  | Event.print _ => false
  | Event.chdir _ => false
  | Event.probe _ => true
  | Event.bind _ => false
  | Event.openBrowser _ => false
  | Event.serve => false

def isChdir : Event → Bool
  | Event.print _ => false
  | Event.chdir _ => true
  | Event.probe _ => false
  | Event.bind _ => false
  | Event.openBrowser _ => false
  | Event.serve => false

/-- An event of the serving phase proper: the serving bind or the accept
loop. -/
def servingEvent : Event → Bool
  | Event.print _ => false
  | Event.chdir _ => false
  | Event.probe _ => false
  | Event.bind _ => true
  | Event.openBrowser _ => false
  | Event.serve => true

/-- A bind oracle that always fails, and one that always succeeds, used
as concrete instances. -/
def availNone : Nat → Int → Bool := fun _ _ => false

def availAll : Nat → Int → Bool := fun _ _ => true

/-- A bind oracle under which only the very first bind attempt of the
process succeeds, exhibiting the probe/serve race. -/
def availFirstOnly : Nat → Int → Bool := fun t _ => decide (t = 0)

def sampleDir : List String := ["repo", "test"]

theorem browserBlock_eq (ok : Bool) (url : String) :
    browserBlock ok url = [Event.openBrowser url] := by
  cases ok <;> rfl

theorem probeGo_zero (avail : Nat → Int → Bool) (t : Nat) (port : Int) :
    probeGo avail t port 0 = ⟨none, [], t⟩ := rfl

theorem probeGo_succ_true (avail : Nat → Int → Bool) (t : Nat) (port : Int)
    (k : Nat) (h : avail t port = true) :
    probeGo avail t port (k + 1) = ⟨some port, [port], t + 1⟩ := by
  simp [probeGo, h]

theorem probeGo_succ_false (avail : Nat → Int → Bool) (t : Nat) (port : Int)
    (k : Nat) (h : avail t port = false) :
    probeGo avail t port (k + 1) =
      ⟨(probeGo avail (t + 1) (port + 1) k).found,
       port :: (probeGo avail (t + 1) (port + 1) k).attempts,
       (probeGo avail (t + 1) (port + 1) k).tEnd⟩ := by
  simp [probeGo, h]

theorem probeGo_attempts_length_le (avail : Nat → Int → Bool) :
    ∀ (n t : Nat) (port : Int),
      (probeGo avail t port n).attempts.length ≤ n := by
  intro n
  induction n with
  | zero => intro t port; simp [probeGo_zero]
  | succ k ih =>
      intro t port
      cases hav : avail t port with
      | true => simp [probeGo_succ_true avail t port k hav]
      | false =>
          rw [probeGo_succ_false avail t port k hav]
          simpa using ih (t + 1) (port + 1)

theorem probeGo_attempts_eq (avail : Nat → Int → Bool) :
    ∀ (n t : Nat) (port : Int),
      ∃ L : Nat, L ≤ n ∧
        (probeGo avail t port n).attempts =
          (List.range L).map (fun (i : Nat) => port + (i : Int)) := by
  intro n
  induction n with
  | zero => intro t port; exact ⟨0, Nat.le_refl 0, by simp [probeGo_zero]⟩
  | succ k ih =>
      intro t port
      cases hav : avail t port with
      | true =>
          refine ⟨1, Nat.succ_le_succ (Nat.zero_le k), ?_⟩
          rw [probeGo_succ_true avail t port k hav]
          simp [List.range_succ]
      | false =>
          obtain ⟨L, hL, hrest⟩ := ih (t + 1) (port + 1)
          refine ⟨L + 1, Nat.succ_le_succ hL, ?_⟩
          rw [probeGo_succ_false avail t port k hav]
          show port :: (probeGo avail (t + 1) (port + 1) k).attempts = _
          rw [hrest, List.range_succ_eq_map, List.map_cons, List.map_map]
          have hfun : ((fun (i : Nat) => port + (i : Int)) ∘ Nat.succ) =
              (fun (i : Nat) => port + 1 + (i : Int)) := by
            funext i
            simp only [Function.comp_apply, Nat.succ_eq_add_one]
            push_cast
            ring
          rw [hfun]
          simp

theorem probeGo_mem_attempts (avail : Nat → Int → Bool) :
    ∀ (n t : Nat) (port p : Int),
      p ∈ (probeGo avail t port n).attempts →
        ∃ j : Nat, j < n ∧ p = port + j := by
  intro n
  induction n with
  | zero => intro t port p hp; simp [probeGo_zero] at hp
  | succ k ih =>
      intro t port p hp
      cases hav : avail t port with
      | true =>
          rw [probeGo_succ_true avail t port k hav] at hp
          simp only [List.mem_singleton] at hp
          exact ⟨0, Nat.succ_pos k, by simp [hp]⟩
      | false =>
          rw [probeGo_succ_false avail t port k hav] at hp
          simp only [List.mem_cons] at hp
          rcases hp with hp | hp
          · exact ⟨0, Nat.succ_pos k, by simp [hp]⟩
          · rcases ih (t + 1) (port + 1) p hp with ⟨j, hj, hpj⟩
            refine ⟨j + 1, Nat.succ_lt_succ hj, ?_⟩
            rw [hpj]; push_cast; ring

theorem probeGo_tEnd_eq (avail : Nat → Int → Bool) :
    ∀ (n t : Nat) (port : Int),
      (probeGo avail t port n).tEnd =
        t + (probeGo avail t port n).attempts.length := by
  intro n
  induction n with
  | zero => intro t port; simp [probeGo_zero]
  | succ k ih =>
      intro t port
      cases hav : avail t port with
      | true => simp [probeGo_succ_true avail t port k hav]
      | false =>
          rw [probeGo_succ_false avail t port k hav]
          simp only [List.length_cons]
          rw [ih (t + 1) (port + 1)]
          omega

theorem probeGo_found_none_iff (avail : Nat → Int → Bool) :
    ∀ (n t : Nat) (port : Int),
      (probeGo avail t port n).found = none ↔
        ∀ i : Nat, i < n → avail (t + i) (port + i) = false := by
  intro n
  induction n with
  | zero => intro t port; simp [probeGo_zero]
  | succ k ih =>
      intro t port
      cases hav : avail t port with
      | true =>
          rw [probeGo_succ_true avail t port k hav]
          simp only [reduceCtorEq, false_iff, not_forall]
          exact ⟨0, Nat.succ_pos k, by simpa using hav⟩
      | false =>
          rw [probeGo_succ_false avail t port k hav]
          simp only
          rw [ih (t + 1) (port + 1)]
          constructor
          · intro h i hi
            cases i with
            | zero => simpa using hav
            | succ m =>
                have := h m (Nat.lt_of_succ_lt_succ hi)
                have e1 : t + 1 + m = t + (m + 1) := by omega
                have e2 : port + 1 + (m : Int) = port + ((m + 1 : Nat) : Int) := by
                  push_cast; ring
                rw [e1, e2] at this
                exact this
          · intro h i hi
            have := h (i + 1) (Nat.succ_lt_succ hi)
            have e1 : t + (i + 1) = t + 1 + i := by omega
            have e2 : port + ((i + 1 : Nat) : Int) = port + 1 + (i : Int) := by
              push_cast; ring
            rw [e1, e2] at this
            exact this

theorem probeGo_found_some_iff (avail : Nat → Int → Bool) :
    ∀ (n t : Nat) (port q : Int),
      (probeGo avail t port n).found = some q ↔
        ∃ i : Nat, i < n ∧ q = port + i ∧ avail (t + i) (port + i) = true ∧
          ∀ j : Nat, j < i → avail (t + j) (port + j) = false := by
  intro n
  induction n with
  | zero => intro t port q; simp [probeGo]
  | succ k ih =>
      intro t port q
      cases hav : avail t port with
      | true =>
          rw [probeGo_succ_true avail t port k hav]
          simp only [Option.some_inj]
          constructor
          · intro h
            exact ⟨0, Nat.succ_pos k, by simp [h], by simpa using hav,
              fun j hj => absurd hj (Nat.not_lt_zero j)⟩
          · rintro ⟨i, hi, hq, hsucc, hprev⟩
            cases i with
            | zero => simpa using hq.symm
            | succ m =>
                have h0 := hprev 0 (Nat.succ_pos m)
                simp only [Nat.add_zero, Nat.cast_zero, add_zero] at h0
                rw [hav] at h0
                exact absurd h0 (by simp)
      | false =>
          rw [probeGo_succ_false avail t port k hav]
          simp only
          rw [ih (t + 1) (port + 1)]
          constructor
          · rintro ⟨i, hi, hq, hsucc, hprev⟩
            refine ⟨i + 1, Nat.succ_lt_succ hi, ?_, ?_, ?_⟩
            · rw [hq]; push_cast; ring
            · have e1 : t + (i + 1) = t + 1 + i := by omega
              have e2 : port + ((i + 1 : Nat) : Int) = port + 1 + (i : Int) := by
                push_cast; ring
              rw [e1, e2]; exact hsucc
            · intro j hj
              cases j with
              | zero => simpa using hav
              | succ m =>
                  have := hprev m (Nat.lt_of_succ_lt_succ hj)
                  have e1 : t + (m + 1) = t + 1 + m := by omega
                  have e2 : port + ((m + 1 : Nat) : Int) = port + 1 + (m : Int) := by
                    push_cast; ring
                  rw [e1, e2]; exact this
          · rintro ⟨i, hi, hq, hsucc, hprev⟩
            cases i with
            | zero =>
                simp only [Nat.add_zero, Nat.cast_zero, add_zero] at hsucc
                rw [hav] at hsucc
                exact absurd hsucc (by simp)
            | succ m =>
                refine ⟨m, Nat.lt_of_succ_lt_succ hi, ?_, ?_, ?_⟩
                · rw [hq]; push_cast; ring
                · have e1 : t + (m + 1) = t + 1 + m := by omega
                  have e2 : port + ((m + 1 : Nat) : Int) = port + 1 + (m : Int) := by
                    push_cast; ring
                  rw [e1, e2] at hsucc; exact hsucc
                · intro j hj
                  have := hprev (j + 1) (Nat.succ_lt_succ hj)
                  have e1 : t + (j + 1) = t + 1 + j := by omega
                  have e2 : port + ((j + 1 : Nat) : Int) = port + 1 + (j : Int) := by
                    push_cast; ring
                  rw [e1, e2] at this; exact this

theorem probeGo_length_of_none (avail : Nat → Int → Bool) :
    ∀ (n t : Nat) (port : Int),
      (probeGo avail t port n).found = none →
        (probeGo avail t port n).attempts.length = n := by
  intro n
  induction n with
  | zero => intro t port _; simp [probeGo_zero]
  | succ k ih =>
      intro t port h
      cases hav : avail t port with
      | true => rw [probeGo_succ_true avail t port k hav] at h; simp at h
      | false =>
          rw [probeGo_succ_false avail t port k hav] at h ⊢
          simp only [List.length_cons] at h ⊢
          rw [ih (t + 1) (port + 1) h]

/-- C1: for every starting port `P`, `find_free_port` tests candidate
ports `P, P+1, ...` strictly in increasing order (the attempt list is
exactly the first consecutive segment starting at `P`), returns the
first candidate whose bind succeeds (all earlier candidates having
failed), and returns no port exactly when no candidate within the
attempt budget binds. -/
theorem find_free_port_first_success (avail : Nat → Int → Bool)
    (t0 : Nat) (P : Int) (n : Nat) :
    (find_free_port avail t0 P n).attempts.length ≤ n ∧
    (find_free_port avail t0 P n).attempts =
      (List.range (find_free_port avail t0 P n).attempts.length).map
        (fun (i : Nat) => P + (i : Int)) ∧
    (∀ q : Int, (find_free_port avail t0 P n).found = some q ↔
      ∃ i : Nat, i < n ∧ q = P + (i : Int) ∧
        avail (t0 + i) (P + (i : Int)) = true ∧
        ∀ j : Nat, j < i → avail (t0 + j) (P + (j : Int)) = false) ∧
    ((find_free_port avail t0 P n).found = none ↔
      ∀ i : Nat, i < n → avail (t0 + i) (P + (i : Int)) = false) := by
  refine ⟨probeGo_attempts_length_le avail n t0 P, ?_,
    fun q => probeGo_found_some_iff avail n t0 P q,
    probeGo_found_none_iff avail n t0 P⟩
  obtain ⟨L, _, hL⟩ := probeGo_attempts_eq avail n t0 P
  show (probeGo avail t0 P n).attempts =
    (List.range (probeGo avail t0 P n).attempts.length).map
      (fun (i : Nat) => P + (i : Int))
  rw [hL]
  simp

/-- C3: every finalized response header list of either variant's server,
whatever the base handler buffered for the request (any path, method or
status), contains the three CORS headers with their fixed values, since
the header-finalization hook appends them unconditionally. -/
theorem end_headers_always_cors (buffered : List (String × String)) :
    (("Access-Control-Allow-Origin", "*") ∈ serveEndHeaders buffered ∧
     ("Access-Control-Allow-Methods", "GET, POST, OPTIONS") ∈
       serveEndHeaders buffered ∧
     ("Access-Control-Allow-Headers", "*") ∈ serveEndHeaders buffered) ∧
    (("Access-Control-Allow-Origin", "*") ∈ testEndHeaders buffered ∧
     ("Access-Control-Allow-Methods", "GET, POST, OPTIONS") ∈
       testEndHeaders buffered ∧
     ("Access-Control-Allow-Headers", "*") ∈ testEndHeaders buffered) := by
  simp [serveEndHeaders, testEndHeaders, corsHeaders, corsHeadersTest]

/-- C10: in either variant, a first command-line argument that `int`
cannot parse makes the conversion raise an uncaught `ValueError`: the
process terminates abnormally with an empty trace, i.e. before any port
probe, directory change, socket bind, or output. -/
theorem bad_argv_uncaught_before_effects (env : Env) (s : String)
    (rest : List String) (hargv : env.argv = s :: rest)
    (hbad : pyIntParse s = none) :
    mainServe env = ([], Outcome.uncaught "ValueError") ∧
    mainTest env = ([], Outcome.uncaught "ValueError") := by
  have hreq : requestedPort env.argv = none := by
    rw [hargv]
    simpa [requestedPort] using hbad
  constructor
  · simp [mainServe, hreq]
  · simp [mainTest, hreq]

/-- Witness for C10 at a concrete input. -/
theorem bad_argv_uncaught_witness :
    mainServe ⟨["abc"], availAll, sampleDir, true, true⟩ =
      ([], Outcome.uncaught "ValueError") ∧
    mainTest ⟨["abc"], availAll, sampleDir, true, true⟩ =
      ([], Outcome.uncaught "ValueError") :=
  bad_argv_uncaught_before_effects ⟨["abc"], availAll, sampleDir, true, true⟩
    "abc" [] rfl (by decide)

/-- C2: if every port in `[P, P+9]` fails to bind, the free-port variant
prints the explanatory message and exits with status 1; exactly 10 probe
attempts occur (the fixed budget is never exceeded) and every probed port
lies in `[P, P+9]`, so `P+10` and beyond are never attempted. -/
theorem exhaustion_exits_nonzero (env : Env) (P : Int)
    (hargv : requestedPort env.argv = some P)
    (hall : ∀ i : Nat, i < 10 → env.avail i (P + (i : Int)) = false) :
    (mainTest env).2 = Outcome.exited 1 ∧
    Event.print ("Error: Could not find an available port starting from "
      ++ toString P) ∈ (mainTest env).1 ∧
    (mainTest env).1.countP isProbe = 10 ∧
    (∀ p : Int, Event.probe p ∈ (mainTest env).1 →
      P ≤ p ∧ p < P + 10) := by
  have hfound : (probeGo env.avail 0 P 10).found = none :=
    (probeGo_found_none_iff env.avail 10 0 P).mpr
      (fun i hi => by simpa using hall i hi)
  have hlen : (probeGo env.avail 0 P 10).attempts.length = 10 :=
    probeGo_length_of_none env.avail 10 0 P hfound
  have hmain : mainTest env =
      ((probeGo env.avail 0 P 10).attempts.map Event.probe ++
        [Event.print
          ("Error: Could not find an available port starting from "
            ++ toString P)],
       Outcome.exited 1) := by
    simp only [mainTest, hargv, mainTestRun, find_free_port, hfound]
  refine ⟨by rw [hmain], by rw [hmain]; simp, ?_, ?_⟩
  · rw [hmain]
    simp only [List.countP_append, List.countP_map]
    have h1 : (probeGo env.avail 0 P 10).attempts.countP
        (isProbe ∘ Event.probe) =
        (probeGo env.avail 0 P 10).attempts.length := by
      simp [isProbe, Function.comp]
    simp only [h1, hlen]
    simp [isProbe, List.countP, List.countP.go]
  · intro p hp
    rw [hmain] at hp
    simp only [List.mem_append, List.mem_map, List.mem_singleton] at hp
    rcases hp with ⟨a, ha, hinj⟩ | hbad
    · have hap : a = p := by
        injection hinj
      subst hap
      obtain ⟨j, hj, hja⟩ := probeGo_mem_attempts env.avail 10 0 P a ha
      subst hja
      constructor
      · have : (0 : Int) ≤ (j : Int) := Int.natCast_nonneg j
        omega
      · have : (j : Int) < 10 := by exact_mod_cast hj
        omega
    · exact absurd hbad (by simp)

/-- Witness for C2 at a concrete input: every bind fails. -/
theorem exhaustion_exits_witness :
    (mainTest ⟨["8000"], availNone, sampleDir, true, true⟩).2 =
      Outcome.exited 1 ∧
    Event.print ("Error: Could not find an available port starting from "
      ++ toString (8000 : Int)) ∈
      (mainTest ⟨["8000"], availNone, sampleDir, true, true⟩).1 ∧
    (mainTest ⟨["8000"], availNone, sampleDir, true, true⟩).1.countP
      isProbe = 10 ∧
    (∀ p : Int,
      Event.probe p ∈
        (mainTest ⟨["8000"], availNone, sampleDir, true, true⟩).1 →
      (8000 : Int) ≤ p ∧ p < 8000 + 10) :=
  exhaustion_exits_nonzero ⟨["8000"], availNone, sampleDir, true, true⟩
    8000 (by decide) (fun i _ => rfl)

theorem serveLoop_no_bind (b : Bool) (q : Int) :
    Event.bind q ∉ (serveLoop b).1 := by
  cases b <;> simp [serveLoop]

theorem serveLoop_interrupt :
    serveLoop true =
      ([Event.serve, Event.print "\nServer stopped."], Outcome.exited 0) := by
  simp [serveLoop]

/-- C4: for a requested port `P` that is free (and, for the free-port
variant, stays free between the probe and the serving bind), the
fixed-port variant's serving socket is bound exactly to `P`, and the
free-port variant's serving socket is bound to the first free port
`≥ P` within the 10-port budget, which is `P` itself: in both traces a
`bind P` occurs and every serving bind is on `P`. -/
theorem binds_requested_port_when_free (env : Env) (P : Int)
    (hargv : requestedPort env.argv = some P)
    (hstable : ∀ (t : Nat) (q : Int), env.avail t q = env.avail 0 q)
    (hfree : env.avail 0 P = true) :
    (Event.bind P ∈ (mainServe env).1 ∧
     ∀ q : Int, Event.bind q ∈ (mainServe env).1 → q = P) ∧
    (Event.bind P ∈ (mainTest env).1 ∧
     ∀ q : Int, Event.bind q ∈ (mainTest env).1 → q = P) := by
  have hr : probeGo env.avail 0 P 10 = ⟨some P, [P], 1⟩ :=
    probeGo_succ_true env.avail 0 P 9 hfree
  have hbind2 : env.avail 1 P = true := by rw [hstable 1 P]; exact hfree
  have hserve : (mainServe env).1 =
      [Event.chdir env.scriptDir, Event.bind P,
       Event.print ("Serving at http://localhost:" ++ toString P ++ "/"),
       Event.print ("Open test page: " ++
         ("http://localhost:" ++ toString P ++ "/test.html")),
       Event.openBrowser ("http://localhost:" ++ toString P ++
         "/test.html"),
       Event.print "Press Ctrl+C to stop the server"] ++
        (serveLoop env.interrupt).1 := by
    simp [mainServe, hargv, mainServeRun, hfree, browserBlock_eq]
  have htest : (mainTest env).1 =
      [Event.probe P, Event.chdir env.scriptDir.dropLast, Event.bind P,
       Event.print ("Serving at http://localhost:" ++ toString P ++ "/"),
       Event.print ("Open test page: " ++
         ("http://localhost:" ++ toString P ++ "/test/test.html")),
       Event.openBrowser ("http://localhost:" ++ toString P ++
         "/test/test.html"),
       Event.print "Press Ctrl+C to stop the server"] ++
        (serveLoop env.interrupt).1 := by
    simp [mainTest, hargv, mainTestRun, find_free_port, hr, hbind2,
      browserBlock_eq]
  refine ⟨⟨by rw [hserve]; simp, ?_⟩, ⟨by rw [htest]; simp, ?_⟩⟩
  · intro q hq
    rw [hserve] at hq
    simp only [List.mem_append, List.mem_cons, List.not_mem_nil,
      Event.bind.injEq, reduceCtorEq, false_or, or_false] at hq
    rcases hq with hq | hq
    · exact hq
    · exact absurd hq (serveLoop_no_bind env.interrupt q)
  · intro q hq
    rw [htest] at hq
    simp only [List.mem_append, List.mem_cons, List.not_mem_nil,
      Event.bind.injEq, reduceCtorEq, false_or, or_false] at hq
    rcases hq with hq | hq
    · exact hq
    · exact absurd hq (serveLoop_no_bind env.interrupt q)

/-- Witness for C4 at a concrete input: all ports free. -/
theorem binds_requested_witness :
    (Event.bind (8000 : Int) ∈
       (mainServe ⟨["8000"], availAll, sampleDir, true, true⟩).1 ∧
     ∀ q : Int,
       Event.bind q ∈
         (mainServe ⟨["8000"], availAll, sampleDir, true, true⟩).1 →
       q = 8000) ∧
    (Event.bind (8000 : Int) ∈
       (mainTest ⟨["8000"], availAll, sampleDir, true, true⟩).1 ∧
     ∀ q : Int,
       Event.bind q ∈
         (mainTest ⟨["8000"], availAll, sampleDir, true, true⟩).1 →
       q = 8000) :=
  binds_requested_port_when_free
    ⟨["8000"], availAll, sampleDir, true, true⟩ 8000 (by decide)
    (fun _ _ => rfl) rfl

/-- C5: in every execution that reaches the serve loop (the port parsed,
the serving bind succeeded — for the free-port variant on whatever port
the probe returned) and in which an interrupt is then delivered, both
variants catch the `KeyboardInterrupt`, print the shutdown message, and
the process exits with status 0. -/
theorem interrupt_clean_shutdown (env : Env) (P q : Int)
    (hargv : requestedPort env.argv = some P)
    (hbind1 : env.avail 0 P = true)
    (hfound : (find_free_port env.avail 0 P 10).found = some q)
    (hbind2 : env.avail (find_free_port env.avail 0 P 10).tEnd q = true)
    (hint : env.interrupt = true) :
    ((mainServe env).2 = Outcome.exited 0 ∧
      Event.print "\nServer stopped." ∈ (mainServe env).1) ∧
    ((mainTest env).2 = Outcome.exited 0 ∧
      Event.print "\nServer stopped." ∈ (mainTest env).1) := by
  have hfound' : (probeGo env.avail 0 P 10).found = some q := hfound
  have hbind2' : env.avail (probeGo env.avail 0 P 10).tEnd q = true := hbind2
  constructor
  · constructor
    · simp [mainServe, hargv, mainServeRun, hbind1, hint,
        serveLoop_interrupt]
    · simp [mainServe, hargv, mainServeRun, hbind1, hint,
        serveLoop_interrupt, browserBlock_eq]
  · constructor
    · simp [mainTest, hargv, mainTestRun, find_free_port, hfound',
        hbind2', hint, serveLoop_interrupt]
    · simp [mainTest, hargv, mainTestRun, find_free_port, hfound',
        hbind2', hint, serveLoop_interrupt, browserBlock_eq]

/-- Witness for C5 at a concrete input: all ports free, interrupt
delivered. -/
theorem interrupt_clean_witness :
    ((mainServe ⟨[], availAll, sampleDir, true, true⟩).2 =
        Outcome.exited 0 ∧
      Event.print "\nServer stopped." ∈
        (mainServe ⟨[], availAll, sampleDir, true, true⟩).1) ∧
    ((mainTest ⟨[], availAll, sampleDir, true, true⟩).2 =
        Outcome.exited 0 ∧
      Event.print "\nServer stopped." ∈
        (mainTest ⟨[], availAll, sampleDir, true, true⟩).1) :=
  interrupt_clean_shutdown ⟨[], availAll, sampleDir, true, true⟩
    8000 8000 rfl rfl (by decide) rfl rfl

/-- C6: browser-launch failure is fully suppressed — with every other
input held fixed, the run in which `webbrowser.open` raises is
indistinguishable (same trace, same outcome) from the run in which it
succeeds, for both variants; in particular nothing is printed about the
failure and serving proceeds identically. -/
theorem browser_failure_suppressed (argv : List String)
    (avail : Nat → Int → Bool) (dir : List String) (intr : Bool) :
    mainServe ⟨argv, avail, dir, false, intr⟩ =
      mainServe ⟨argv, avail, dir, true, intr⟩ ∧
    mainTest ⟨argv, avail, dir, false, intr⟩ =
      mainTest ⟨argv, avail, dir, true, intr⟩ := by
  constructor
  · simp only [mainServe, mainServeRun, browserBlock_eq]
  · simp only [mainTest, mainTestRun, browserBlock_eq]

/-- C7: the command line of either variant is a single optional
positional argument interpreted as the port: with no argument the port
is 8000 (same behaviour as passing "8000"), the first argument alone
determines behaviour (trailing arguments are ignored), and the model's
only inputs besides `argv` are the bind oracle, script directory,
browser and interrupt flags — no flags or environment variables exist. -/
theorem cli_single_optional_arg :
    requestedPort [] = some 8000 ∧
    (∀ (s : String) (rest : List String),
      requestedPort (s :: rest) = pyIntParse s) ∧
    (∀ (avail : Nat → Int → Bool) (dir : List String) (bok intr : Bool),
      mainServe ⟨[], avail, dir, bok, intr⟩ =
        mainServe ⟨["8000"], avail, dir, bok, intr⟩ ∧
      mainTest ⟨[], avail, dir, bok, intr⟩ =
        mainTest ⟨["8000"], avail, dir, bok, intr⟩) ∧
    (∀ (s : String) (rest : List String) (avail : Nat → Int → Bool)
      (dir : List String) (bok intr : Bool),
      mainServe ⟨s :: rest, avail, dir, bok, intr⟩ =
        mainServe ⟨[s], avail, dir, bok, intr⟩ ∧
      mainTest ⟨s :: rest, avail, dir, bok, intr⟩ =
        mainTest ⟨[s], avail, dir, bok, intr⟩) := by
  refine ⟨rfl, fun s rest => rfl, fun avail dir bok intr => ⟨?_, ?_⟩,
    fun s rest avail dir bok intr => ⟨?_, ?_⟩⟩
  · have h8 : pyIntParse "8000" = some 8000 := by decide
    simp only [mainServe, requestedPort, h8, mainServeRun]
  · have h8 : pyIntParse "8000" = some 8000 := by decide
    simp only [mainTest, requestedPort, h8, mainTestRun, find_free_port]
  · simp only [mainServe, requestedPort, mainServeRun]
  · simp only [mainTest, requestedPort, mainTestRun, find_free_port]

theorem serveLoop_no_chdir (b : Bool) (e : Event) :
    e ∈ (serveLoop b).1 → isChdir e = false := by
  cases b
  · intro he
    simp only [serveLoop, Bool.false_eq_true, if_false,
      List.mem_singleton] at he
    subst he
    rfl
  · intro he
    simp only [serveLoop, if_true, List.mem_cons, List.not_mem_nil,
      or_false] at he
    rcases he with rfl | rfl <;> rfl

theorem probes_not_chdir (l : List Int) (e : Event) :
    e ∈ l.map Event.probe → isChdir e = false ∧ servingEvent e = false := by
  intro he
  simp only [List.mem_map] at he
  rcases he with ⟨a, _, rfl⟩
  exact ⟨rfl, rfl⟩

/-- C8: each variant performs exactly one working-directory change, to
the script's own directory (fixed-port variant) or to the parent of the
test folder (free-port variant), and every serving event — the serving
bind and the accept loop — comes after it: the trace splits as
`pre ++ chdir target :: post` with no directory change and no serving
event before it and no further directory change after it. -/
theorem chdir_once_before_serving (env : Env) (P q : Int)
    (hargv : requestedPort env.argv = some P)
    (hfound : (find_free_port env.avail 0 P 10).found = some q) :
    (∃ pre post,
       (mainServe env).1 = pre ++ Event.chdir env.scriptDir :: post ∧
       (∀ e ∈ pre, isChdir e = false ∧ servingEvent e = false) ∧
       (∀ e ∈ post, isChdir e = false)) ∧
    (∃ pre post,
       (mainTest env).1 =
         pre ++ Event.chdir env.scriptDir.dropLast :: post ∧
       (∀ e ∈ pre, isChdir e = false ∧ servingEvent e = false) ∧
       (∀ e ∈ post, isChdir e = false)) := by
  have hfound' : (probeGo env.avail 0 P 10).found = some q := hfound
  constructor
  · by_cases hb : env.avail 0 P = true
    · refine ⟨[],
        [Event.bind P,
         Event.print ("Serving at http://localhost:" ++ toString P ++ "/"),
         Event.print ("Open test page: " ++
           ("http://localhost:" ++ toString P ++ "/test.html")),
         Event.openBrowser ("http://localhost:" ++ toString P ++
           "/test.html"),
         Event.print "Press Ctrl+C to stop the server"] ++
          (serveLoop env.interrupt).1, ?_, by simp, ?_⟩
      · simp [mainServe, hargv, mainServeRun, hb, browserBlock_eq]
      · intro e he
        simp only [List.mem_append, List.mem_cons, List.not_mem_nil,
          or_false] at he
        rcases he with (rfl | rfl | rfl | rfl | rfl) | he
        · rfl
        · rfl
        · rfl
        · rfl
        · rfl
        · exact serveLoop_no_chdir env.interrupt e he
    · refine ⟨[], [], ?_, by simp, by simp⟩
      simp [mainServe, hargv, mainServeRun, hb]
  · by_cases hb2 : env.avail (probeGo env.avail 0 P 10).tEnd q = true
    · refine ⟨(probeGo env.avail 0 P 10).attempts.map Event.probe ++
        (if q = P then []
         else [Event.print ("Port " ++ toString P ++
           " is in use, using port " ++ toString q ++ " instead")]),
        [Event.bind q,
         Event.print ("Serving at http://localhost:" ++ toString q ++ "/"),
         Event.print ("Open test page: " ++
           ("http://localhost:" ++ toString q ++ "/test/test.html")),
         Event.openBrowser ("http://localhost:" ++ toString q ++
           "/test/test.html"),
         Event.print "Press Ctrl+C to stop the server"] ++
          (serveLoop env.interrupt).1, ?_, ?_, ?_⟩
      · simp [mainTest, hargv, mainTestRun, find_free_port, hfound', hb2,
          browserBlock_eq]
      · intro e he
        simp only [List.mem_append] at he
        rcases he with he | he
        · exact probes_not_chdir _ e he
        · by_cases hqP : q = P
          · rw [if_pos hqP] at he
            simp at he
          · rw [if_neg hqP] at he
            simp only [List.mem_singleton] at he
            subst he
            exact ⟨rfl, rfl⟩
      · intro e he
        simp only [List.mem_append, List.mem_cons, List.not_mem_nil,
          or_false] at he
        rcases he with (rfl | rfl | rfl | rfl | rfl) | he
        · rfl
        · rfl
        · rfl
        · rfl
        · rfl
        · exact serveLoop_no_chdir env.interrupt e he
    · refine ⟨(probeGo env.avail 0 P 10).attempts.map Event.probe ++
        (if q = P then []
         else [Event.print ("Port " ++ toString P ++
           " is in use, using port " ++ toString q ++ " instead")]),
        [], ?_, ?_, by simp⟩
      · simp [mainTest, hargv, mainTestRun, find_free_port, hfound', hb2]
      · intro e he
        simp only [List.mem_append] at he
        rcases he with he | he
        · exact probes_not_chdir _ e he
        · by_cases hqP : q = P
          · rw [if_pos hqP] at he
            simp at he
          · rw [if_neg hqP] at he
            simp only [List.mem_singleton] at he
            subst he
            exact ⟨rfl, rfl⟩

/-- Witness for C8 at a concrete input. -/
theorem chdir_once_witness :
    (∃ pre post,
       (mainServe ⟨[], availAll, sampleDir, true, true⟩).1 =
         pre ++ Event.chdir sampleDir :: post ∧
       (∀ e ∈ pre, isChdir e = false ∧ servingEvent e = false) ∧
       (∀ e ∈ post, isChdir e = false)) ∧
    (∃ pre post,
       (mainTest ⟨[], availAll, sampleDir, true, true⟩).1 =
         pre ++ Event.chdir sampleDir.dropLast :: post ∧
       (∀ e ∈ pre, isChdir e = false ∧ servingEvent e = false) ∧
       (∀ e ∈ post, isChdir e = false)) :=
  chdir_once_before_serving ⟨[], availAll, sampleDir, true, true⟩
    8000 8000 rfl rfl


/-- C9: the free-port probe releases its bind before returning, and
`main` performs a second, unguarded bind of the returned port: when the
probe succeeds on `P` but the port is taken again before the serving
bind, the run ends in an uncaught `OSError` — not via `sys.exit`, and
without the no-available-port message ever being printed. -/
theorem probe_rebind_race (env : Env) (P : Int)
    (hargv : requestedPort env.argv = some P)
    (h0 : env.avail 0 P = true)
    (h1 : env.avail 1 P = false) :
    (find_free_port env.avail 0 P 10).found = some P ∧
    (mainTest env).2 = Outcome.uncaught "OSError" ∧
    (∀ c : Nat, (mainTest env).2 ≠ Outcome.exited c) ∧
    Event.print ("Error: Could not find an available port starting from "
      ++ toString P) ∉ (mainTest env).1 := by
  have hr : probeGo env.avail 0 P 10 = ⟨some P, [P], 1⟩ :=
    probeGo_succ_true env.avail 0 P 9 h0
  have hmain : mainTest env =
      ([Event.probe P, Event.chdir env.scriptDir.dropLast],
       Outcome.uncaught "OSError") := by
    simp [mainTest, hargv, mainTestRun, find_free_port, hr, h1]
  refine ⟨by simp [find_free_port, hr], by rw [hmain], ?_, ?_⟩
  · intro c
    rw [hmain]
    simp
  · rw [hmain]
    simp

/-- Witness for C9 at a concrete input: the port is free at the probe
and taken again at the serving bind. -/
theorem probe_rebind_witness :
    (find_free_port availFirstOnly 0 8000 10).found = some 8000 ∧
    (mainTest ⟨[], availFirstOnly, sampleDir, true, true⟩).2 =
      Outcome.uncaught "OSError" ∧
    (∀ c : Nat,
      (mainTest ⟨[], availFirstOnly, sampleDir, true, true⟩).2 ≠
        Outcome.exited c) ∧
    Event.print ("Error: Could not find an available port starting from "
      ++ toString (8000 : Int)) ∉
      (mainTest ⟨[], availFirstOnly, sampleDir, true, true⟩).1 :=
  probe_rebind_race ⟨[], availFirstOnly, sampleDir, true, true⟩ 8000
    rfl rfl rfl
